import Mathlib

/-!
Verification development for the `address-book-with-redux` TUI application:
a redux-style store (State evolved by Actions through middleware and a
reducer, with an append-only History), a REPL command loop, and two
generations of the async-add middleware (the function-based one in
`tui/middleware.rs` and the trait-based `AddAsyncCmdMw` in
`tui/middlewares/add_async_cmd_mw.rs`).

The store engine itself (dispatch, history append), the `address_book`
data model and reducer, and the `json_rpc` payload type live outside the
available sources; they are modelled from the specification (each such
definition carries a doc comment starting with "Modelled from the spec:").
Asynchronous spawning (`tokio::spawn`) is modelled by returning a list of
pending tasks: a spawned task is scheduled, not run, by the spawning call,
and is executed afterwards against the store state current at that later
time.
-/

namespace AddressBook

/-- Modelled from the spec: a Contact record of the address book State
(id, name, email, phone); the `address_book` module is not among the
available sources. -/
structure Contact where
  id : Nat
  name : String
  email : String
  phone : String
  deriving DecidableEq, Repr

/-- Modelled from the spec: the State holds an ordered list of Contact
records and a transient search-result view. -/
structure State where
  addressBook : List Contact
  searchResults : List Contact
  deriving DecidableEq, Repr

/-- Modelled from the spec: `State::default()` is the empty state. -/
def State.default : State := ⟨[], []⟩

/-- Modelled from the spec: the Action tagged union of the `address_book`
module, with the variants used by `repl_loop.rs` and `middleware.rs`
(`AddContact{name, email, phone}`, `RemoveContactById{id}`,
`RemoveAllContacts`, `Search{term}`, `ResetState{new_state}`, and the
async-add trigger `AsyncAddContact`). -/
inductive Action where
  | AddContact (name email phone : String)
  | RemoveContactById (id : Nat)
  | RemoveAllContacts
  | Search (term : String)
  | ResetState (newState : State)
  | AsyncAddContact
  deriving DecidableEq, Repr

/-- Whether a contact matches a search term (the term occurs in the
contact's name). Modelled from the spec: the reducer source is not among
the available sources; the spec only requires a transient search-result
view computed from the contacts. -/
def contactMatches (term : String) (c : Contact) : Bool :=
  (c.name.splitOn term).length != 1

/-- Modelled from the spec: `address_book_reducer`, the single reducer
registered by `create_store`. Reducers are pure and total; unhandled
variants (here the async-add trigger) are a no-op. -/
def address_book_reducer (st : State) (a : Action) : State :=
  match a with
  | Action.AddContact n e p =>
      { st with addressBook := st.addressBook ++ [⟨st.addressBook.length, n, e, p⟩] }
  | Action.RemoveContactById id =>
      { st with addressBook := st.addressBook.filter fun c => c.id != id }
  | Action.RemoveAllContacts => { st with addressBook := [] }
  | Action.Search term =>
      { st with searchResults := st.addressBook.filter (contactMatches term) }
  | Action.ResetState s => s
  | Action.AsyncAddContact => st

/-- The payload returned by the fake-contact-data collaborator
(`json_rpc::FakeContactData`). Modelled from the spec: only the fields
consumed by the middleware (name, phone_h, email_u, email_d) are kept. -/
structure FakeContactData where
  name : String
  phone_h : String
  email_u : String
  email_d : String
  deriving DecidableEq, Repr

/-- The outcome of one call to the asynchronous data provider
(`fake_contact_data_api().await`): a payload or an error. -/
inductive ProviderResult where
  | ok (d : FakeContactData)
  | err (e : String)
  deriving DecidableEq, Repr

/-- The fixed fallback payload substituted by `unwrap_or_else` in both
middleware generations when the provider fails
(`middleware.rs` lines 65-71, `add_async_cmd_mw.rs` lines 65-71). -/
def fallbackContactData : FakeContactData :=
  { name := "Foo Bar", phone_h := "123-456-7890", email_u := "foo", email_d := "bar.com" }

/-- Embeds `fake_contact_data_api().await.unwrap_or_else(|_| FakeContactData {...})`:
the payload on success, the fixed fallback on error. -/
def contactDataOrFallback : ProviderResult → FakeContactData
  | ProviderResult.ok d => d
  | ProviderResult.err _ => fallbackContactData

/-- Embeds the action construction of `add_async_cmd_impl`
(`middleware.rs` lines 73-80): `AddContact(name, email_u@email_d, phone_h)`. -/
def buildAddContact (d : FakeContactData) : Action :=
  Action.AddContact d.name (d.email_u ++ "@" ++ d.email_d) d.phone_h

/-- A task handed to `tokio::spawn`. `logAction` is the logging task
spawned by `logger_mw`; `addAsyncCmdImpl` is the fire-and-forget task
spawned by `add_async_cmd_mw` (which fetches the payload, builds the
`AddContact` action and dispatches it under its own lock acquisition). -/
inductive SpawnedTask where
  | logAction (a : Action)
  | addAsyncCmdImpl
  deriving DecidableEq, Repr

/-- Embeds `logger_mw` (`middleware.rs` lines 30-48): optionally sleeps
(time is not modelled), spawns a task that logs the action, and returns
`None` (never substitutes). -/
def logger_mw (action : Action) : Option Action × List SpawnedTask :=
  (none, [SpawnedTask.logAction action])

/-- Embeds `add_async_cmd_mw` (`middleware.rs` lines 50-58): iff the
action is the async-add trigger it spawns the fire-and-forget
`add_async_cmd_impl` task; it always returns `None`. -/
def add_async_cmd_mw (action : Action) : Option Action × List SpawnedTask :=
  match action with
  | Action.AsyncAddContact => (none, [SpawnedTask.addAsyncCmdImpl])
  | _ => (none, [])

/-- The middleware registration order fixed by `create_store`
(`repl_loop.rs` lines 44-64): `logger_mw` then `add_async_cmd_mw`. -/
def middlewares : List (Action → Option Action × List SpawnedTask) :=
  [logger_mw, add_async_cmd_mw]

/-- Modelled from the spec: the middleware chain is applied in
registration order; `None` passes the action through unchanged, `Some a2`
substitutes `a2` for the remainder of the pipeline. Spawned tasks from all
middleware are collected. -/
def runMwChain : List (Action → Option Action × List SpawnedTask) → Action →
    Action × List SpawnedTask
  | [], a => (a, [])
  | mw :: rest, a =>
      let r := mw a
      let r2 := runMwChain rest (r.1.getD a)
      (r2.1, r.2 ++ r2.2)

/-- Modelled from the spec: the Store exclusively owns State and History;
History is the append-only log of every action that reached the reducer
chain (post-middleware-substitution). -/
structure Store where
  state : State
  history : List Action
  deriving DecidableEq, Repr

/-- Modelled from the spec: `dispatch` runs the middleware chain, folds
the (post-substitution) action into State through the reducer, and appends
that action to History, all inside one write-lock critical section; tasks
spawned by middleware are only scheduled, to run after the lock is
released. `dispatch_spawn` / `dispatch_async` is semantically identical. -/
def Store.dispatch (store : Store) (a : Action) : Store × List SpawnedTask :=
  let r := runMwChain middlewares a
  ({ state := address_book_reducer store.state r.1,
     history := store.history ++ [r.1] }, r.2)

/-- Runs one pending task against the store state current when the task
runs: a logging task has no store effect; the fire-and-forget
`add_async_cmd_impl` task resolves the provider call (payload or
fallback), builds the `AddContact` action, and dispatches it under its own
lock acquisition (`middleware.rs` lines 61-88). -/
def runTask (pr : ProviderResult) (store : Store) :
    SpawnedTask → Store × List SpawnedTask
  | SpawnedTask.logAction _ => (store, [])
  | SpawnedTask.addAsyncCmdImpl =>
      store.dispatch (buildAddContact (contactDataOrFallback pr))

/-- Runs pending tasks to completion (fuel-bounded queue processing;
tasks a task spawns are queued behind the rest). -/
def runTasks (pr : ProviderResult) : Nat → Store → List SpawnedTask → Store
  | 0, store, _ => store
  | _ + 1, store, [] => store
  | fuel + 1, store, t :: rest =>
      let r := runTask pr store t
      runTasks pr fuel r.1 (rest ++ r.2)

/-- Dispatching the async-add trigger and then draining every pending
spawned task (the drain needs at most 4 steps; 8 is ample fuel). -/
def asyncAddScenario (pr : ProviderResult) (store : Store) : Store :=
  let r := store.dispatch Action.AsyncAddContact
  runTasks pr 8 r.1 r.2

/-- The concrete provider payload of the spec's substitution test:
`{name:"Ann", email_u:"a", email_d:"b.com", phone:"555"}`. -/
def annData : FakeContactData :=
  { name := "Ann", phone_h := "555", email_u := "a", email_d := "b.com" }

/-- A store in its initial condition: default State, empty History. -/
def store0 : Store := ⟨State.default, []⟩

/-! The `V2` namespace embeds the later, trait-based snapshot of the crate
(`tui/middlewares/add_async_cmd_mw.rs`), whose Action type is split into
standard (`Std`) and middleware-trigger (`Mw`) sub-enums. -/

namespace V2

/-- The middleware-trigger sub-enum `Mw`. Modelled from the spec: only the
variant used by `AddAsyncCmdMw` (`Mw::AsyncAddCmd`) is visible in the
available sources. -/
inductive Mw where
  | AsyncAddCmd
  deriving DecidableEq, Repr

/-- The standard-action sub-enum `Std`. Modelled from the spec: the
variants mirror the flat Action type; `AddContact` is the one constructed
by `AddAsyncCmdMw`. -/
inductive Std where
  | AddContact (name email phone : String)
  | RemoveContactById (id : Nat)
  | RemoveAllContacts
  | Search (term : String)
  | ResetState (newState : State)
  deriving DecidableEq, Repr

/-- The split Action type of the trait-based snapshot:
`Action::Std(Std)` or `Action::Mw(Mw)`. -/
inductive Action where
  | Std (s : Std)
  | Mw (m : Mw)
  deriving DecidableEq, Repr

/-- Embeds `AddAsyncCmdMw::run` (`add_async_cmd_mw.rs` lines 56-84): iff
the action is `Action::Mw(Mw::AsyncAddCmd)` it resolves the provider call
(payload, or the fixed fallback on error) and returns
`Some(Action::Std(Std::AddContact(name, email_u@email_d, phone_h)))`;
every other action returns `None`. -/
def AddAsyncCmdMw.run (action : Action) (pr : ProviderResult) : Option Action :=
  match action with
  | Action.Mw Mw.AsyncAddCmd =>
      let fd := contactDataOrFallback pr
      some (Action.Std (Std.AddContact fd.name (fd.email_u ++ "@" ++ fd.email_d) fd.phone_h))
  | _ => none

end V2

/-! Embedding of the REPL command loop (`repl_loop.rs` lines 69-186). -/

/-- The result of the inner `readline_with_prompt` call used by the
`remove` and `search` branches: `ok` carries the line read, `err` is an
I/O failure of the prompt. -/
inductive ReadResult where
  | ok (s : String)
  | err
  deriving DecidableEq, Repr

/-- What one REPL iteration does, projected onto the dimensions the
command loop contract speaks about: the actions passed to
`dispatch`/`dispatch_spawn`, whether an error message was printed
(`style_error`), and whether a network-probe task was spawned (the `ip`
and `air` branches). -/
structure ReplOutcome where
  dispatches : List Action
  errorShown : Bool
  netProbe : Bool
  deriving DecidableEq, Repr

/-- The numeric value of a decimal digit character, `none` otherwise. -/
def digitVal? (c : Char) : Option Nat :=
  if c.isDigit then some (c.toNat - 48) else none

/-- Accumulating decimal parse over the characters of the id line. -/
def parseNatAux : List Char → Nat → Option Nat
  | [], acc => some acc
  | c :: cs, acc =>
      match digitVal? c with
      | some d => parseNatAux cs (acc * 10 + d)
      | none => none

/-- Modelled from the spec: `id.parse()` of the `remove` branch — the
contact id is numeric (the spec's caller-input error is a malformed,
i.e. non-parseable, identifier), so the parse is a decimal Nat parse that
fails on an empty line or any non-digit character. -/
def parseNat? (s : String) : Option Nat :=
  match s.data with
  | [] => none
  | cs => parseNatAux cs 0

/-- Embeds one iteration of `repl_loop` (`repl_loop.rs` lines 73-183) as a
function of the command line read, the random `u8` drawn by the
`add-sync` branch (taken as a parameter), and the result of the inner
prompt used by `remove`/`search`. `none` models a panic: the `remove`
branch calls `id.parse().unwrap()`, which aborts on a non-parseable id.
The `history` branch reads the history and dispatches nothing; `quit` and
`exit` leave the loop and dispatch nothing. -/
def replStep (cmd : String) (randomId : Nat) (sub : ReadResult) : Option ReplOutcome :=
  if cmd = "help" then some ⟨[], false, false⟩
  else if cmd = "quit" then some ⟨[], false, false⟩
  else if cmd = "exit" then some ⟨[], false, false⟩
  else if cmd = "add-sync" then
    some ⟨[Action.AddContact ("John Doe #" ++ toString randomId)
      ("jd@gmail.com #" ++ toString randomId)
      ("123-456-7890 #" ++ toString randomId)], false, false⟩
  else if cmd = "add-async" then some ⟨[Action.AsyncAddContact], false, false⟩
  else if cmd = "clear" then some ⟨[Action.RemoveAllContacts], false, false⟩
  else if cmd = "remove" then
    match sub with
    | ReadResult.ok line =>
        match parseNat? line with
        | some id => some ⟨[Action.RemoveContactById id], false, false⟩
        | none => none
    | ReadResult.err => some ⟨[], true, false⟩
  else if cmd = "search" then
    match sub with
    | ReadResult.ok line => some ⟨[Action.Search line], false, false⟩
    | ReadResult.err => some ⟨[], true, false⟩
  else if cmd = "reset" then some ⟨[Action.ResetState State.default], false, false⟩
  else if cmd = "history" then some ⟨[], false, false⟩
  else if cmd = "ip" then some ⟨[], false, true⟩
  else if cmd = "air" then some ⟨[], false, true⟩
  else some ⟨[], true, false⟩

/-- The number of `dispatch`/`dispatch_spawn` calls one REPL iteration
makes (`none` when the iteration panics). -/
def dispatchCount (cmd : String) (randomId : Nat) (sub : ReadResult) : Option Nat :=
  (replStep cmd randomId sub).map fun o => o.dispatches.length

/-- The fixed command words recognised by the REPL match. -/
def knownCmds : List String :=
  ["help", "quit", "exit", "add-sync", "add-async", "clear", "remove",
   "search", "reset", "history", "ip", "air"]

/-- A concrete one-contact store used to witness the no-match removal
theorem. -/
def storeW : Store := ⟨⟨[⟨1, "Ann", "a@b.com", "555"⟩], []⟩, []⟩

/-- C1 (counterexample): with the function-based middleware of
`middleware.rs`, dispatching the async-add trigger on a fresh store with
the provider returning the Ann payload and draining the spawned tasks
leaves History with TWO entries — the original trigger first, then the
built `AddContact` — not the single substituted entry the claim states. -/
theorem async_add_single_entry_cex :
    (asyncAddScenario (ProviderResult.ok annData) store0).history
        = [Action.AsyncAddContact, Action.AddContact "Ann" "a@b.com" "555"]
      ∧ (asyncAddScenario (ProviderResult.ok annData) store0).history
        ≠ [Action.AddContact "Ann" "a@b.com" "555"] := by
  decide

/-- C1 (amended): for every store and every provider outcome, dispatching
the async-add trigger through the function-based middleware and draining
the spawned tasks appends exactly two entries to History: the original
trigger `AsyncAddContact` (recorded by the triggering dispatch, since
`add_async_cmd_mw` returns `None` rather than substituting) and then the
`AddContact` built from the provider payload (name, email_u@email_d,
phone), appended by the independent fire-and-forget dispatch. -/
theorem async_add_two_history_entries (store : Store) (pr : ProviderResult) :
    (asyncAddScenario pr store).history
      = store.history ++ [Action.AsyncAddContact, buildAddContact (contactDataOrFallback pr)] := by
  simp [asyncAddScenario, Store.dispatch, runMwChain, middlewares, logger_mw,
        add_async_cmd_mw, runTasks, runTask, address_book_reducer, buildAddContact]

/-- C2: dispatching the async-add trigger returns control to the caller
with the fire-and-forget dispatch only scheduled, never performed inside
the dispatch's own critical section: the returned store's History has
exactly the one entry of the triggering dispatch, its State is untouched,
and the fire-and-forget task sits in the pending-task list, to run against
the store only after the dispatch has returned (released its lock). -/
theorem fire_and_forget_deferred (store : Store) :
    (store.dispatch Action.AsyncAddContact).1.history
        = store.history ++ [Action.AsyncAddContact]
      ∧ (store.dispatch Action.AsyncAddContact).1.state = store.state
      ∧ (store.dispatch Action.AsyncAddContact).2
        = [SpawnedTask.logAction Action.AsyncAddContact, SpawnedTask.addAsyncCmdImpl] := by
  refine ⟨?_, ?_, ?_⟩ <;>
    simp [Store.dispatch, runMwChain, middlewares, logger_mw, add_async_cmd_mw,
          address_book_reducer]

/-- C3: the `remove` branch of the REPL calls `id.parse().unwrap()`, so a
malformed (non-parseable) identifier such as "abc" panics (modelled as
`none`) instead of being reported as a rejected command: the code aborts
where the claim requires a contained caller-input error. -/
theorem remove_malformed_id_panics :
    replStep "remove" 0 (ReadResult.ok "abc") = none ∧ parseNat? "abc" = none := by
  decide

/-- C4: whenever the async data provider returns an error, both middleware
generations substitute the fixed fallback payload, so the committed
contact action is exactly `AddContact("Foo Bar", "foo@bar.com",
"123-456-7890")` — the dispatch is never failed. -/
theorem provider_error_fallback_contact (e : String) :
    buildAddContact (contactDataOrFallback (ProviderResult.err e))
        = Action.AddContact "Foo Bar" "foo@bar.com" "123-456-7890"
      ∧ V2.AddAsyncCmdMw.run (V2.Action.Mw V2.Mw.AsyncAddCmd) (ProviderResult.err e)
        = some (V2.Action.Std (V2.Std.AddContact "Foo Bar" "foo@bar.com" "123-456-7890")) := by
  exact ⟨rfl, rfl⟩

/-- C5: `AddAsyncCmdMw::run` returns
`Some(AddContact(name, email_u@email_d, phone))` built from the provider
payload (or its fallback) if the action is the trigger
`Action::Mw(Mw::AsyncAddCmd)`, and returns `None` (pass-through, no
substitution) for every other action. -/
theorem add_async_cmd_mw_run_iff (a : V2.Action) (pr : ProviderResult) :
    (a = V2.Action.Mw V2.Mw.AsyncAddCmd →
      V2.AddAsyncCmdMw.run a pr = some (V2.Action.Std (V2.Std.AddContact
        (contactDataOrFallback pr).name
        ((contactDataOrFallback pr).email_u ++ "@" ++ (contactDataOrFallback pr).email_d)
        (contactDataOrFallback pr).phone_h)))
    ∧ (a ≠ V2.Action.Mw V2.Mw.AsyncAddCmd → V2.AddAsyncCmdMw.run a pr = none) := by
  cases a with
  | Std s => exact ⟨(fun h => nomatch h), (fun _ => rfl)⟩
  | Mw m =>
      cases m with
      | AsyncAddCmd => exact ⟨(fun _ => rfl), (fun h => absurd rfl h)⟩

/-- C5 (witness): the trigger with the Ann payload substitutes the built
`AddContact`, while a non-trigger action passes through with `None`. -/
theorem add_async_cmd_mw_run_iff_witness :
    V2.AddAsyncCmdMw.run (V2.Action.Mw V2.Mw.AsyncAddCmd) (ProviderResult.ok annData)
        = some (V2.Action.Std (V2.Std.AddContact "Ann" "a@b.com" "555"))
      ∧ V2.AddAsyncCmdMw.run (V2.Action.Std V2.Std.RemoveAllContacts) (ProviderResult.ok annData)
        = none :=
  ⟨(add_async_cmd_mw_run_iff _ _).1 rfl,
   (add_async_cmd_mw_run_iff _ _).2 (by decide)⟩

/-- C6 (counterexample): `help` is one of the fixed textual commands of
the loop, yet it maps to zero dispatch calls, refuting the claim that each
fixed command maps to exactly one dispatch/dispatch_async call. -/
theorem help_cmd_no_dispatch_cex :
    dispatchCount "help" 0 ReadResult.err = some 0
      ∧ dispatchCount "help" 0 ReadResult.err ≠ some 1 := by
  decide

/-- C6 (amended): each state-changing command (`add-sync`, `add-async`,
`clear`, `remove` with a parseable id, `search` with a provided term,
`reset`) maps to exactly one dispatch/dispatch_spawn call; the purely
informational commands (`help`, `quit`, `exit`, `history`, and the
network probes `ip`, `air`) perform no dispatch; and any unrecognized
input prints a visible error and performs no dispatch. -/
theorem repl_dispatch_mapping (randomId n : Nat) (s t u : String)
    (hs : parseNat? s = some n) (hu : u ∉ knownCmds) :
    dispatchCount "add-sync" randomId ReadResult.err = some 1
  ∧ dispatchCount "add-async" randomId ReadResult.err = some 1
  ∧ dispatchCount "clear" randomId ReadResult.err = some 1
  ∧ dispatchCount "remove" randomId (ReadResult.ok s) = some 1
  ∧ dispatchCount "search" randomId (ReadResult.ok t) = some 1
  ∧ dispatchCount "reset" randomId ReadResult.err = some 1
  ∧ dispatchCount "help" randomId ReadResult.err = some 0
  ∧ dispatchCount "quit" randomId ReadResult.err = some 0
  ∧ dispatchCount "exit" randomId ReadResult.err = some 0
  ∧ dispatchCount "history" randomId ReadResult.err = some 0
  ∧ dispatchCount "ip" randomId ReadResult.err = some 0
  ∧ dispatchCount "air" randomId ReadResult.err = some 0
  ∧ replStep u randomId ReadResult.err = some ⟨[], true, false⟩ := by
  simp only [knownCmds, List.mem_cons, List.not_mem_nil, or_false, not_or] at hu
  obtain ⟨h1, h2, h3, h4, h5, h6, h7, h8, h9, h10, h11, h12⟩ := hu
  refine ⟨?_, ?_, ?_, ?_, ?_, ?_, ?_, ?_, ?_, ?_, ?_, ?_, ?_⟩ <;>
    simp [dispatchCount, replStep, hs, h1, h2, h3, h4, h5, h6, h7, h8, h9, h10, h11, h12]

/-- C6 (witness): the amended mapping at the concrete inputs id 0,
removal line "42" (parsing to 42), search term "Ann" (not numeric) and
unknown command "bogus". -/
theorem repl_dispatch_mapping_witness :
    (parseNat? "42" = some 42 ∧ "bogus" ∉ knownCmds)
  ∧ (dispatchCount "add-sync" 0 ReadResult.err = some 1
  ∧ dispatchCount "add-async" 0 ReadResult.err = some 1
  ∧ dispatchCount "clear" 0 ReadResult.err = some 1
  ∧ dispatchCount "remove" 0 (ReadResult.ok "42") = some 1
  ∧ dispatchCount "search" 0 (ReadResult.ok "Ann") = some 1
  ∧ dispatchCount "reset" 0 ReadResult.err = some 1
  ∧ dispatchCount "help" 0 ReadResult.err = some 0
  ∧ dispatchCount "quit" 0 ReadResult.err = some 0
  ∧ dispatchCount "exit" 0 ReadResult.err = some 0
  ∧ dispatchCount "history" 0 ReadResult.err = some 0
  ∧ dispatchCount "ip" 0 ReadResult.err = some 0
  ∧ dispatchCount "air" 0 ReadResult.err = some 0
  ∧ replStep "bogus" 0 ReadResult.err = some ⟨[], true, false⟩) :=
  ⟨⟨by decide, by decide⟩, repl_dispatch_mapping 0 42 "42" "Ann" "bogus" (by decide) (by decide)⟩

/-- C7: `logger_mw` returns `None` for every input action — it never
substitutes — and its only effect is the spawned task that logs the
action (the optional artificial delay does not change the result). -/
theorem logger_mw_always_none (a : Action) :
    (logger_mw a).1 = none ∧ (logger_mw a).2 = [SpawnedTask.logAction a] :=
  ⟨rfl, rfl⟩

/-- C8: dispatching `RemoveContactById(id)` on a store whose State holds
no contact with the given id leaves State unchanged and still appends
exactly that action to History. -/
theorem remove_no_match_state_unchanged (store : Store) (id : Nat)
    (h : ∀ c ∈ store.state.addressBook, c.id ≠ id) :
    (store.dispatch (Action.RemoveContactById id)).1.state = store.state
      ∧ (store.dispatch (Action.RemoveContactById id)).1.history
        = store.history ++ [Action.RemoveContactById id] := by
  have hf : store.state.addressBook.filter (fun c => c.id != id)
      = store.state.addressBook := by
    rw [List.filter_eq_self]
    intro c hc
    simpa using h c hc
  have hr : address_book_reducer store.state (Action.RemoveContactById id)
      = store.state := by
    simp [address_book_reducer, hf]
  exact ⟨hr, rfl⟩

/-- C8 (witness): removing id 2 from a store holding only the contact
with id 1 keeps State intact and appends the action to History. -/
theorem remove_no_match_state_unchanged_witness :
    (∀ c ∈ storeW.state.addressBook, c.id ≠ 2)
      ∧ ((storeW.dispatch (Action.RemoveContactById 2)).1.state = storeW.state
        ∧ (storeW.dispatch (Action.RemoveContactById 2)).1.history
          = storeW.history ++ [Action.RemoveContactById 2]) :=
  ⟨by decide, remove_no_match_state_unchanged storeW 2 (by decide)⟩

/-- C9: every invocation of the `reset` command dispatches exactly
`ResetState(State::default())` — whatever random id was drawn and whatever
the inner prompt would have read, the command surface can only ever reset
the store to the default empty state. -/
theorem reset_always_default (randomId : Nat) (sub : ReadResult) :
    replStep "reset" randomId sub = some ⟨[Action.ResetState State.default], false, false⟩ := by
  rfl

/-- C10: every invocation of the `add-sync` command dispatches exactly one
`AddContact` whose three fields carry the same numeric suffix — the one
random value drawn for that invocation. -/
theorem add_sync_same_suffix (randomId : Nat) (sub : ReadResult) :
    replStep "add-sync" randomId sub
      = some ⟨[Action.AddContact ("John Doe #" ++ toString randomId)
          ("jd@gmail.com #" ++ toString randomId)
          ("123-456-7890 #" ++ toString randomId)], false, false⟩ := by
  rfl

end AddressBook
